import Mathlib

/-!
# Verification of the FourQubit detector-construction unit

A shallow embedding of `src/FourQubitDetectorConstruction.cc`
(G4CMP4QubitModel).  The embedded functions mirror, statement by
statement, the observable construction effects of
`FourQubitDetectorConstruction::Construct`, `::SetupGeometry` and
`::AttachPhononSensor`: which volumes are placed, which
`G4CMPLogicalBorderSurface` objects are created (name, the two physical
volumes, the surface property), which `G4CMPSurfaceProperty` objects are
defined, and how the lattice / surface tables evolve across repeated
calls to `Construct`.

The assembly classes (`FourQubitTransmissionLine`,
`FourQubitResonatorAssembly`, `FourQubitCurveFluxLine`,
`FourQubitTransmon`, `FourQubitXmon`, `FourQubitResonator`,
`FourQubitStraight`, `FourQubitCurve`, `FourQubitQubitHousing`) are not
part of the examined translation unit; only their
`GetListOfAllFundamentalSubVolumes()` catalogs are consumed here.  The
geometry-construction functions are therefore parameterised by a
`Catalogs` record supplying, per assembly class, the catalog of
fundamental sub-volumes as a function of the instance name.
-/

namespace FourQubit

/-- Decidable substring test on strings, used to embed
`std::string::find(pat) != std::string::npos`. -/
def strContains (s pat : String) : Bool :=
  (s.toList.tails).any (fun t => pat.toList.isPrefixOf t)

/-- One entry of `GetListOfAllFundamentalSubVolumes()`: the first two
components of the `(materialName, volumeName, physicalVolume)` tuple.
The physical volume itself is identified by the instance that owns the
leaf together with the leaf name (see `Vol.leafVol`). -/
structure Leaf where
  material : String
  name : String
deriving DecidableEq, Repr

/-- Identity of a physical volume appearing as a border-surface endpoint.
Assembly instances are numbered by their order of creation inside
`SetupGeometry`, standing for C++ object identity. -/
inductive Vol where
  | world
  | siliconChip
  | groundPlane
  | assemblyVol (instId : Nat)
  | leafVol (instId : Nat) (leafName : String)
deriving DecidableEq, Repr

/-- The three `G4CMPSurfaceProperty` objects a border surface can
reference: `fSiNbInterface`, `fSiCopperInterface`, `fSiVacuumInterface`. -/
inductive PropId where
  | siNb
  | siCopper
  | siVacuum
deriving DecidableEq, Repr

/-- A created `G4CMPLogicalBorderSurface`: constructor arguments
`(name, volumeA, volumeB, property)`.  In the source, `volA` is always
the first physical-volume argument (`phys_siliconChip` or likewise). -/
structure Interface where
  name : String
  volA : Vol
  volB : Vol
  prop : PropId
deriving DecidableEq, Repr

/-- The border surfaces the per-leaf loop body creates for one catalog
entry (e.g. lines 288-301 of the source): a surface with property
`fSiVacuumInterface` when the material name contains `"Vacuum"`, and a
surface with property `fSiNbInterface` when it contains `"Niobium"`;
both tests are independent `if` statements and both surfaces share the
single name `"border_siliconChip_" + leafName`.  A material matching
neither test yields no surface, and nothing else happens. -/
def leafBorders (instId : Nat) (leaf : Leaf) : List Interface :=
  let tempName : String := "border_siliconChip_" ++ leaf.name
  (if strContains leaf.material "Vacuum" then
     [⟨tempName, Vol.siliconChip, Vol.leafVol instId leaf.name, PropId.siVacuum⟩]
   else []) ++
  (if strContains leaf.material "Niobium" then
     [⟨tempName, Vol.siliconChip, Vol.leafVol instId leaf.name, PropId.siNb⟩]
   else [])

/-- The whole per-assembly border-creation loop (`for iSubVol in ...`),
applied to an instance's catalog. -/
def wireAssembly (instId : Nat) (leaves : List Leaf) : List Interface :=
  (leaves.map (leafBorders instId)).flatten

/-- Number of catalog leaves whose material classifies successfully,
i.e. matches at least one of the two substring rules. -/
def classifiedLeafCount (leaves : List Leaf) : Nat :=
  (leaves.filter
    (fun l => strContains l.material "Vacuum" || strContains l.material "Niobium")).length

/-- The five `dp_use…` toggles consumed by `SetupGeometry`. -/
structure DeviceConfig where
  useQubitHousing : Bool
  useGroundPlane : Bool
  useTransmissionLine : Bool
  useResonatorAssembly : Bool
  useFluxLines : Bool
deriving DecidableEq, Repr

/-- The assembly classes instantiated by `SetupGeometry`. -/
inductive AsmClass where
  | qubitHousing
  | tLine
  | resonatorAssembly
  | curveFluxLine
  | transmon
  | xmon
  | resonator
  | straightSeg
  | curveSeg
deriving DecidableEq, Repr

/-- One assembly instantiation: its creation-order id (object identity),
its class, and the instance name passed to the constructor. -/
structure AsmInstance where
  id : Nat
  cls : AsmClass
  instName : String
deriving DecidableEq, Repr

/-- Modelled from the spec: the assembly classes
(`FourQubitTransmissionLine`, `FourQubitResonatorAssembly`,
`FourQubitCurveFluxLine`, `FourQubitTransmon`, `FourQubitXmon`,
`FourQubitResonator`, `FourQubitStraight`, `FourQubitCurve`) are not in
the examined sources; only their fundamental-sub-volume catalogs are
consumed.  Per §4.2 of the spec an assembly builder is a pure function
of blueprint and instance name producing a flat catalog of
`(materialRole, name)` pairs with stable names, so each class's catalog
is a function of the instance name alone. -/
structure Catalogs where
  tLine : String → List Leaf
  resonatorAssembly : String → List Leaf
  curveFluxLine : String → List Leaf
  transmon : String → List Leaf
  xmon : String → List Leaf
  resonator : String → List Leaf
  straightSeg : String → List Leaf
  curveSeg : String → List Leaf

/-- What one full generation of `SetupGeometry` creates. -/
structure BuildOutput where
  volumes : List Vol
  instances : List AsmInstance
  interfaces : List Interface
  latticeRegs : List Vol

/-- The physical volumes an assembly instantiation contributes: its own
placed volume plus one volume per catalog leaf. -/
def instVols (i : Nat) (leaves : List Leaf) : List Vol :=
  Vol.assemblyVol i :: leaves.map (fun l => Vol.leafVol i l.name)

/-- `border_siliconChip_world` (source line 214). -/
def worldItf : Interface :=
  ⟨"border_siliconChip_world", Vol.siliconChip, Vol.world, PropId.siVacuum⟩

/-- `border_siliconChip_qubitHousing` (source line 232). -/
def housingItf : Interface :=
  ⟨"border_siliconChip_qubitHousing", Vol.siliconChip, Vol.assemblyVol 0, PropId.siCopper⟩

/-- `border_siliconChip_groundPlane` (source line 266). -/
def groundPlaneItf : Interface :=
  ⟨"border_siliconChip_groundPlane", Vol.siliconChip, Vol.groundPlane, PropId.siNb⟩

/-- Instance ids and names of the six resonator assemblies
(`sprintf "ResonatorAssembly_%d"`, source lines 308-341). -/
def resonatorAssemblySlots : List (Nat × String) :=
  [(2, "ResonatorAssembly_0"), (3, "ResonatorAssembly_1"), (4, "ResonatorAssembly_2"),
   (5, "ResonatorAssembly_3"), (6, "ResonatorAssembly_4"), (7, "ResonatorAssembly_5")]

/-- Instance ids and names of the three enabled `FourQubitCurveFluxLine`
instantiations (source lines 373, 405, 435); the four corner flux lines
are commented out in the source. -/
def fluxLineSlots : List (Nat × String) :=
  [(8, "TopStraightFluxLine"), (9, "BottomStraightFluxLine"), (10, "bottomRightFluxLine")]

/-- The fixed qubit-adjacent elements built unconditionally inside the
ground-plane branch (source lines 590-948), in creation order.  Note
the reused instance names: both transmons are named `"Transmon"`, both
Xmons `"Xmon"`, and the resonator pairs reuse `"Resonator0"` and
`"Resonator1"`. -/
def fixedInstances : List AsmInstance :=
  [⟨11, AsmClass.transmon, "Transmon"⟩, ⟨12, AsmClass.transmon, "Transmon"⟩,
   ⟨13, AsmClass.xmon, "Xmon"⟩, ⟨14, AsmClass.xmon, "Xmon"⟩,
   ⟨15, AsmClass.resonator, "Resonator0"⟩, ⟨16, AsmClass.resonator, "Resonator1"⟩,
   ⟨17, AsmClass.resonator, "Resonator0"⟩, ⟨18, AsmClass.resonator, "Resonator1"⟩,
   ⟨19, AsmClass.curveSeg, "Curve1"⟩, ⟨20, AsmClass.straightSeg, "Straight1"⟩,
   ⟨21, AsmClass.curveSeg, "Curve2"⟩, ⟨22, AsmClass.straightSeg, "Straight2"⟩,
   ⟨23, AsmClass.curveSeg, "Curve3"⟩, ⟨24, AsmClass.straightSeg, "Straight3"⟩]

/-- Volumes contributed by the fixed qubit-adjacent elements. -/
def fixedVols (cats : Catalogs) : List Vol :=
  instVols 11 (cats.transmon "Transmon") ++ instVols 12 (cats.transmon "Transmon") ++
  instVols 13 (cats.xmon "Xmon") ++ instVols 14 (cats.xmon "Xmon") ++
  instVols 15 (cats.resonator "Resonator0") ++ instVols 16 (cats.resonator "Resonator1") ++
  instVols 17 (cats.resonator "Resonator0") ++ instVols 18 (cats.resonator "Resonator1") ++
  instVols 19 (cats.curveSeg "Curve1") ++ instVols 20 (cats.straightSeg "Straight1") ++
  instVols 21 (cats.curveSeg "Curve2") ++ instVols 22 (cats.straightSeg "Straight2") ++
  instVols 23 (cats.curveSeg "Curve3") ++ instVols 24 (cats.straightSeg "Straight3")

/-- Border surfaces created for the fixed qubit-adjacent elements
(source lines 604-991).  The border-creation loops run for the two
transmons, the two Xmons, the four resonators, then `bottomStraight1`
(line 952) and `bottomCurve1` (line 975) — and for no other chain
element: `bottomCurve2`, `bottomStraight2`, `bottomCurve3` and
`bottomStraight3` are placed but receive no border loop. -/
def fixedItfs (cats : Catalogs) : List Interface :=
  wireAssembly 11 (cats.transmon "Transmon") ++ wireAssembly 12 (cats.transmon "Transmon") ++
  wireAssembly 13 (cats.xmon "Xmon") ++ wireAssembly 14 (cats.xmon "Xmon") ++
  wireAssembly 15 (cats.resonator "Resonator0") ++ wireAssembly 16 (cats.resonator "Resonator1") ++
  wireAssembly 17 (cats.resonator "Resonator0") ++ wireAssembly 18 (cats.resonator "Resonator1") ++
  wireAssembly 20 (cats.straightSeg "Straight1") ++ wireAssembly 19 (cats.curveSeg "Curve1")

/-- Embedding of `SetupGeometry` (source lines 157-1006), minus the
surface-property definitions handled by `definePropDefs`: which
volumes, assembly instances, border surfaces and lattice registrations
one generation creates, as a function of the toggles and the assembly
catalogs. -/
def setupGeometry (cats : Catalogs) (cfg : DeviceConfig) : BuildOutput :=
  { volumes :=
      [Vol.world, Vol.siliconChip] ++
      (if cfg.useQubitHousing then [Vol.assemblyVol 0] else []) ++
      (if cfg.useGroundPlane then
        [Vol.groundPlane] ++
        (if cfg.useTransmissionLine then instVols 1 (cats.tLine "TransmissionLine") else []) ++
        (if cfg.useResonatorAssembly then
          (resonatorAssemblySlots.map (fun p => instVols p.1 (cats.resonatorAssembly p.2))).flatten
         else []) ++
        (if cfg.useFluxLines then
          (fluxLineSlots.map (fun p => instVols p.1 (cats.curveFluxLine p.2))).flatten
         else []) ++
        fixedVols cats
       else []),
    instances :=
      (if cfg.useQubitHousing then [⟨0, AsmClass.qubitHousing, "QubitHousing"⟩] else []) ++
      (if cfg.useGroundPlane then
        (if cfg.useTransmissionLine then [⟨1, AsmClass.tLine, "TransmissionLine"⟩] else []) ++
        (if cfg.useResonatorAssembly then
          resonatorAssemblySlots.map (fun p => ⟨p.1, AsmClass.resonatorAssembly, p.2⟩)
         else []) ++
        (if cfg.useFluxLines then
          fluxLineSlots.map (fun p => ⟨p.1, AsmClass.curveFluxLine, p.2⟩)
         else []) ++
        fixedInstances
       else []),
    interfaces :=
      [worldItf] ++
      (if cfg.useQubitHousing then [housingItf] else []) ++
      (if cfg.useGroundPlane then
        [groundPlaneItf] ++
        (if cfg.useTransmissionLine then wireAssembly 1 (cats.tLine "TransmissionLine") else []) ++
        (if cfg.useResonatorAssembly then
          (resonatorAssemblySlots.map (fun p => wireAssembly p.1 (cats.resonatorAssembly p.2))).flatten
         else []) ++
        (if cfg.useFluxLines then
          (fluxLineSlots.map (fun p => wireAssembly p.1 (cats.curveFluxLine p.2))).flatten
         else []) ++
        fixedItfs cats
       else []),
    latticeRegs := [Vol.siliconChip] }

/-- Number of instances of one assembly class in a build output. -/
def countClass (c : AsmClass) (out : BuildOutput) : Nat :=
  (out.instances.filter (fun i => i.cls == c)).length

/-- The border surfaces of a build whose far-side endpoint is a leaf of
the assembly instance with id `i`. -/
def bordersOfInst (i : Nat) (out : BuildOutput) : List Interface :=
  out.interfaces.filter (fun itf =>
    match itf.volB with
    | Vol.leafVol j _ => j == i
    | _ => false)

/-- Modelled from the spec: a concrete witness catalog.  Each
sub-assembly of the device is composed of niobium conductor features
and vacuum cavity gaps (spec §4.5, and the source comment at line 285:
the transmission line is a composite of both Nb and vacuum), with leaf
names seeded by the instance name. -/
def specLeaves (n : String) : List Leaf :=
  [⟨"Niobium", n ++ "_ConductorLayer"⟩, ⟨"Vacuum", n ++ "_CavityGap"⟩]

/-- Modelled from the spec: witness catalogs for all assembly classes. -/
def specCatalogs : Catalogs :=
  ⟨specLeaves, specLeaves, specLeaves, specLeaves,
   specLeaves, specLeaves, specLeaves, specLeaves⟩

/-- `Build(\x7buseGroundPlane:true, all others:false\x7d)`. -/
def cfgGroundPlaneOnly : DeviceConfig := ⟨false, true, false, false, false⟩

/-- Ground plane plus flux lines, all other toggles off. -/
def cfgWithFlux : DeviceConfig := ⟨false, true, false, false, true⟩

/-- Ground plane plus transmission line, all other toggles off. -/
def cfgWithTL : DeviceConfig := ⟨false, true, true, false, false⟩

/-! ## Surface properties, sensor attachment, and the `Construct` state machine -/

/-- CLHEP/Geant4 system of units (mm = ns = MeV = 1): hertz. -/
def clhepHertz : ℚ := 1 / 1000000000

/-- `GHz = 1e9 * hertz` (source line 121). -/
def srcGHz : ℚ := 1000000000 * clhepHertz

/-- CLHEP nanometer (mm = 1). -/
def clhepNm : ℚ := 1 / 1000000

/-- CLHEP electronvolt (MeV = 1). -/
def clhepEV : ℚ := 1 / 1000000

/-- CLHEP picosecond (ns = 1). -/
def clhepPs : ℚ := 1 / 1000

/-- CLHEP km/s (mm = 1, ns = 1). -/
def clhepKmPerS : ℚ := 1000000 / 1000000000

/-- The `AddScatteringProperties` payload shared by the three interface
types (source lines 125-128 and 144-149). -/
structure ScatterProps where
  anhCutoff : ℚ
  reflCutoff : ℚ
  anhCoeffs : List ℚ
  diffCoeffs : List ℚ
  specCoeffs : List ℚ
  freqUnits : ℚ × ℚ × ℚ
deriving DecidableEq, Repr

/-- A `G4CMPSurfaceProperty`: its name, the eight constructor
coefficients, the optional scattering payload, the phonon
material-properties table (a key-value map), and whether a phonon
electrode has been set on it. -/
structure SurfaceProperty where
  name : String
  ctorArgs : List ℚ
  scatter : Option ScatterProps
  sensorConsts : String → Option ℚ
  hasElectrode : Bool

/-- An empty material-properties table. -/
def emptyTable : String → Option ℚ := fun _ => none

/-- `AddConstProperty`: set `k` to `v`, overwriting a previous value. -/
def setConst (tbl : String → Option ℚ) (k : String) (v : ℚ) : String → Option ℚ :=
  fun q => if q = k then some v else tbl q

/-- The eight `AddConstProperty` calls of `AttachPhononSensor` (source
lines 1020-1027), applied in source order. -/
def applySensorTable (t : String → Option ℚ) : String → Option ℚ :=
  setConst (setConst (setConst (setConst (setConst (setConst (setConst (setConst t
    "filmAbsorption" 0)
    "filmThickness" (90 * clhepNm))
    "gapEnergy" ((16 / 10000) * clhepEV))
    "lowQPLimit" 3)
    "phononLifetime" ((417 / 100) * clhepPs))
    "phononLifetimeSlope" (29 / 100))
    "vSound" ((3480 / 1000) * clhepKmPerS))
    "subgapAbsorption" 0

/-- `FourQubitDetectorConstruction::AttachPhononSensor` (source lines
1012-1033): if the surface property is null, return without doing
anything; otherwise fill the phonon material-properties table and set a
fresh `G4CMPPhononElectrode` on the property, replacing any previous
one. -/
def attachPhononSensor : Option SurfaceProperty → Option SurfaceProperty
  | none => none
  | some p =>
      some { p with sensorConsts := applySensorTable p.sensorConsts, hasElectrode := true }

/-- A fresh `G4CMPSurfaceProperty(name, eight coefficients)`. -/
def baseSurfaceProperty (nm : String) (args : List ℚ) : SurfaceProperty :=
  { name := nm, ctorArgs := args, scatter := none,
    sensorConsts := emptyTable, hasElectrode := false }

/-- The shared `AddScatteringProperties(anhCutoff, reflCutoff, anhCoeffs,
diffCoeffs, specCoeffs, GHz, GHz, GHz)` call (source lines 144-149):
`anhCutoff = 520`, `reflCutoff = 350`, coefficient vectors from lines
125-127. -/
def addScattering (p : SurfaceProperty) : SurfaceProperty :=
  { p with scatter := some ⟨520, 350, [0, 0, 0, 0, 0, 0], [1, 0, 0, 0, 0, 0],
      [0, 0, 0, 0, 0, 0], (srcGHz, srcGHz, srcGHz)⟩ }

/-- The three interface-type definitions
(`fSiNbInterface`, `fSiCopperInterface`, `fSiVacuumInterface`). -/
structure PropDefs where
  siNb : SurfaceProperty
  siCopper : SurfaceProperty
  siVacuum : SurfaceProperty

/-- The `if (!fConstructed)` block of `SetupGeometry` (source lines
132-153): construct the three surface properties, add the scattering
payload to each, and attach the phonon sensor to `fSiNbInterface`. -/
def definePropDefs : PropDefs :=
  let siNb0 := addScattering
    (baseSurfaceProperty "SiNbInterface" [1, 0, 0, 0, 1 / 10, 1, 0, 0])
  { siNb := (attachPhononSensor (some siNb0)).getD siNb0,
    siCopper := addScattering
      (baseSurfaceProperty "SiCopperInterface" [1, 0, 0, 0, 1, 0, 0, 0]),
    siVacuum := addScattering
      (baseSurfaceProperty "SiVacuumInterface" [0, 1, 0, 0, 0, 1, 0, 0]) }

/-- The state a `FourQubitDetectorConstruction` object shares with the
process-wide sinks: the `fConstructed` flag, the surface-property
definitions, the border-surface table, the lattice registrations, the
volume stores, the created assembly instances, and the sensitivity
object. -/
structure DetState where
  constructed : Bool
  props : Option PropDefs
  surfaceTable : List Interface
  latticeRegs : List Vol
  volumeStore : List Vol
  instances : List AsmInstance
  sensitivityMade : Bool

/-- The state before the first `Construct()` call. -/
def initState : DetState :=
  { constructed := false, props := none, surfaceTable := [], latticeRegs := [],
    volumeStore := [], instances := [], sensitivityMade := false }

/-- The `if (fConstructed)` block of `Construct` (source lines 76-91):
on a repeat call the volume stores are already clean (or are cleaned at
lines 81-84), `G4LatticeManager::Reset()` drops all lattice
registrations, and `CleanSurfaceTable()` drops all border surfaces.
The `G4CMPSurfaceProperty` definitions are left alone (source line 89:
no need to redefine them). -/
def teardown (s : DetState) : DetState :=
  if s.constructed then
    { s with surfaceTable := [], latticeRegs := [], volumeStore := [], instances := [] }
  else s

/-- The construction part of `Construct` (lines 93-95): run
`SetupGeometry`, defining the surface properties only when
`fConstructed` is still false, registering all volumes, instances,
border surfaces and lattices of the new generation, establishing the
sensitivity object, and finally setting `fConstructed = true`. -/
def registerGeneration (cats : Catalogs) (cfg : DeviceConfig) (s : DetState) : DetState :=
  let out := setupGeometry cats cfg
  { constructed := true,
    props := if s.constructed then s.props else some definePropDefs,
    surfaceTable := s.surfaceTable ++ out.interfaces,
    latticeRegs := s.latticeRegs ++ out.latticeRegs,
    volumeStore := s.volumeStore ++ out.volumes,
    instances := s.instances ++ out.instances,
    sensitivityMade := true }

/-- `FourQubitDetectorConstruction::Construct` (source lines 74-98):
teardown of the previous generation, then registration of the new one. -/
def construct (cats : Catalogs) (cfg : DeviceConfig) (s : DetState) : DetState :=
  registerGeneration cats cfg (teardown s)

/-- Catalogs in which the transmission line exposes one leaf whose
material matches neither classification rule. -/
def siliconLeafCats : Catalogs :=
  { specCatalogs with tLine := fun _ => [⟨"Silicon", "TL_Dielectric"⟩] }

/-! ## Theorems -/

/-- C1.  The per-leaf classification loop has no failure path: a leaf
whose material-role tag matches neither the Vacuum rule nor the
Niobium rule produces no border surface at all, and the build continues
and completes normally (the transmission-line instance is still placed
and the later transmon section is still wired) instead of aborting with
a configuration error before that leaf's interface. -/
theorem c1_unrecognized_leaf_silently_skipped :
    leafBorders 1 ⟨"Silicon", "TL_Dielectric"⟩ = [] ∧
    bordersOfInst 1 (setupGeometry siliconLeafCats cfgWithTL) = [] ∧
    (⟨1, AsmClass.tLine, "TransmissionLine"⟩ : AsmInstance) ∈
      (setupGeometry siliconLeafCats cfgWithTL).instances ∧
    countClass AsmClass.transmon (setupGeometry siliconLeafCats cfgWithTL) = 2 := by
  decide

/-- C2.  Classification is not a function into at most one property:
a material name containing both `"Vacuum"` and `"Niobium"` satisfies
both independent `if` statements of the loop body, so the single leaf
gets two border surfaces with two different properties (and the same
name). -/
theorem c2_substring_rules_overlap :
    leafBorders 1 ⟨"NiobiumVacuumGap", "NbVacGap"⟩ =
      [⟨"border_siliconChip_NbVacGap", Vol.siliconChip, Vol.leafVol 1 "NbVacGap",
        PropId.siVacuum⟩,
       ⟨"border_siliconChip_NbVacGap", Vol.siliconChip, Vol.leafVol 1 "NbVacGap",
        PropId.siNb⟩] := by
  decide

/-- C7.  In the chained-segment assembly (3 curves + 3 straights) only
`Straight1` and `Curve1` receive the border-creation loop: `Curve2`,
`Straight2`, `Curve3` and `Straight3` are placed (their instances are
in the build) and their catalogs classify successfully, yet they
contribute zero substrate interfaces, while `Straight1` and `Curve1`
each contribute exactly as many interfaces as their classified leaves. -/
theorem c7_chain_elements_skipped :
    (⟨21, AsmClass.curveSeg, "Curve2"⟩ : AsmInstance) ∈
      (setupGeometry specCatalogs cfgGroundPlaneOnly).instances ∧
    (⟨22, AsmClass.straightSeg, "Straight2"⟩ : AsmInstance) ∈
      (setupGeometry specCatalogs cfgGroundPlaneOnly).instances ∧
    classifiedLeafCount (specCatalogs.curveSeg "Curve2") = 2 ∧
    classifiedLeafCount (specCatalogs.straightSeg "Straight2") = 2 ∧
    bordersOfInst 21 (setupGeometry specCatalogs cfgGroundPlaneOnly) = [] ∧
    bordersOfInst 22 (setupGeometry specCatalogs cfgGroundPlaneOnly) = [] ∧
    bordersOfInst 23 (setupGeometry specCatalogs cfgGroundPlaneOnly) = [] ∧
    bordersOfInst 24 (setupGeometry specCatalogs cfgGroundPlaneOnly) = [] ∧
    (bordersOfInst 20 (setupGeometry specCatalogs cfgGroundPlaneOnly)).length =
      classifiedLeafCount (specCatalogs.straightSeg "Straight1") ∧
    (bordersOfInst 19 (setupGeometry specCatalogs cfgGroundPlaneOnly)).length =
      classifiedLeafCount (specCatalogs.curveSeg "Curve1") := by
  decide

/-- C4 (counterexample).  Interface names are not globally unique
within one build generation: the two transmon instances are both named
`"Transmon"`, so their leaves derive identical
`border_siliconChip_…` names — the name list of the ground-plane-only
build has a duplicate, and the name derived from the first transmon's
conductor leaf occurs twice. -/
theorem c4_duplicate_interface_names :
    ¬ (((setupGeometry specCatalogs cfgGroundPlaneOnly).interfaces.map
          Interface.name).Nodup) ∧
    (((setupGeometry specCatalogs cfgGroundPlaneOnly).interfaces.map
        Interface.name).count "border_siliconChip_Transmon_ConductorLayer") = 2 := by
  decide

/-- C5 (counterexample).  `Build(\x7buseGroundPlane:true, all
others:false\x7d)` does not produce exactly two interfaces and zero
qubit/resonator volumes: the fixed qubit-adjacent elements are built
unconditionally inside the ground-plane branch. -/
theorem c5_ground_plane_only_not_minimal :
    ¬ ((setupGeometry specCatalogs cfgGroundPlaneOnly).interfaces.length = 2 ∧
       countClass AsmClass.transmon (setupGeometry specCatalogs cfgGroundPlaneOnly) = 0 ∧
       countClass AsmClass.resonator (setupGeometry specCatalogs cfgGroundPlaneOnly) = 0) := by
  decide

/-- C6 (counterexample).  The flux-line branch does not instantiate
exactly two curved flux lines: it instantiates three
(`TopStraightFluxLine`, `BottomStraightFluxLine`,
`bottomRightFluxLine`). -/
theorem c6_not_two_flux_lines :
    ¬ (countClass AsmClass.curveFluxLine (setupGeometry specCatalogs cfgWithFlux) = 2) := by
  decide

/-! ### Helper lemmas -/

lemma volA_of_mem_leafBorders {itf : Interface} {i : Nat} {leaf : Leaf}
    (h : itf ∈ leafBorders i leaf) : itf.volA = Vol.siliconChip := by
  unfold leafBorders at h
  rcases List.mem_append.mp h with h | h <;> split at h <;> simp_all

lemma volA_of_mem_wireAssembly {itf : Interface} {i : Nat} {L : List Leaf}
    (h : itf ∈ wireAssembly i L) : itf.volA = Vol.siliconChip := by
  unfold wireAssembly at h
  obtain ⟨l, hl, hitf⟩ := List.mem_flatten.mp h
  obtain ⟨leaf, -, rfl⟩ := List.mem_map.mp hl
  exact volA_of_mem_leafBorders hitf

lemma volA_of_mem_fixedItfs {itf : Interface} {cats : Catalogs}
    (h : itf ∈ fixedItfs cats) : itf.volA = Vol.siliconChip := by
  unfold fixedItfs at h
  simp only [List.mem_append] at h
  rcases h with ((((((((h | h) | h) | h) | h) | h) | h) | h) | h) | h <;>
    exact volA_of_mem_wireAssembly h

lemma volA_of_mem_slotSection {itf : Interface} {slots : List (Nat × String)}
    {f : String → List Leaf}
    (h : itf ∈ (slots.map (fun p => wireAssembly p.1 (f p.2))).flatten) :
    itf.volA = Vol.siliconChip := by
  obtain ⟨l, hl, hitf⟩ := List.mem_flatten.mp h
  obtain ⟨p, -, rfl⟩ := List.mem_map.mp hl
  exact volA_of_mem_wireAssembly hitf

lemma not_mem_instVols_siliconChip (i : Nat) (L : List Leaf) :
    Vol.siliconChip ∉ instVols i L := by
  simp [instVols]

lemma not_mem_instVols_groundPlane (i : Nat) (L : List Leaf) :
    Vol.groundPlane ∉ instVols i L := by
  simp [instVols]

lemma not_mem_fixedVols_siliconChip (cats : Catalogs) :
    Vol.siliconChip ∉ fixedVols cats := by
  simp [fixedVols, not_mem_instVols_siliconChip]

lemma not_mem_fixedVols_groundPlane (cats : Catalogs) :
    Vol.groundPlane ∉ fixedVols cats := by
  simp [fixedVols, not_mem_instVols_groundPlane]

lemma applySensorTable_idem (t : String → Option ℚ) :
    applySensorTable (applySensorTable t) = applySensorTable t := by
  funext k
  simp only [applySensorTable, setConst]
  split_ifs <;> rfl

lemma forall_mem_app {α : Type} {P : α → Prop} {l₁ l₂ : List α}
    (h₁ : ∀ x ∈ l₁, P x) (h₂ : ∀ x ∈ l₂, P x) : ∀ x ∈ l₁ ++ l₂, P x := by
  intro x hx
  rcases List.mem_append.mp hx with h | h
  exacts [h₁ x h, h₂ x h]

lemma forall_mem_ite {α : Type} {P : α → Prop} {c : Prop} [Decidable c] {l₁ l₂ : List α}
    (h₁ : ∀ x ∈ l₁, P x) (h₂ : ∀ x ∈ l₂, P x) : ∀ x ∈ (if c then l₁ else l₂), P x := by
  split
  exacts [h₁, h₂]

lemma forall_mem_nil {α : Type} {P : α → Prop} : ∀ x ∈ ([] : List α), P x := by
  intro x hx
  exact absurd hx (List.not_mem_nil x)

/-- C4 (amended).  Every border surface of every build has the silicon
chip substrate as its substrate-side (first) endpoint. -/
theorem c4_substrate_side (cats : Catalogs) (cfg : DeviceConfig) :
    ∀ itf ∈ (setupGeometry cats cfg).interfaces, itf.volA = Vol.siliconChip := by
  simp only [setupGeometry]
  refine forall_mem_app (forall_mem_app ?_ ?_) ?_
  · intro itf h
    rw [List.mem_singleton] at h
    subst h; rfl
  · refine forall_mem_ite ?_ forall_mem_nil
    intro itf h
    rw [List.mem_singleton] at h
    subst h; rfl
  · refine forall_mem_ite ?_ forall_mem_nil
    refine forall_mem_app (forall_mem_app (forall_mem_app (forall_mem_app ?_ ?_) ?_) ?_) ?_
    · intro itf h
      rw [List.mem_singleton] at h
      subst h; rfl
    · exact forall_mem_ite (fun itf h => volA_of_mem_wireAssembly h) forall_mem_nil
    · exact forall_mem_ite (fun itf h => volA_of_mem_slotSection h) forall_mem_nil
    · exact forall_mem_ite (fun itf h => volA_of_mem_slotSection h) forall_mem_nil
    · exact fun itf h => volA_of_mem_fixedItfs h

/-- C4 (witness for the amended theorem). -/
theorem c4_substrate_side_witness : worldItf.volA = Vol.siliconChip :=
  c4_substrate_side specCatalogs cfgGroundPlaneOnly worldItf (by decide)

/-- C5 (amended).  With `useGroundPlane` true and every other toggle
false there is exactly one substrate volume and one ground-plane
volume, and the substrate↔world and substrate↔groundplane interfaces
are both created — but the fixed qubit-adjacent elements are built as
well, regardless of the catalogs: two transmons, two Xmons, four
resonators and the 3-curve/3-straight chain, and no transmission-line,
resonator-assembly or flux-line instances. -/
theorem c5_ground_plane_only_contents (cats : Catalogs) :
    (setupGeometry cats cfgGroundPlaneOnly).volumes.count Vol.siliconChip = 1 ∧
    (setupGeometry cats cfgGroundPlaneOnly).volumes.count Vol.groundPlane = 1 ∧
    worldItf ∈ (setupGeometry cats cfgGroundPlaneOnly).interfaces ∧
    groundPlaneItf ∈ (setupGeometry cats cfgGroundPlaneOnly).interfaces ∧
    (setupGeometry cats cfgGroundPlaneOnly).instances = fixedInstances ∧
    countClass AsmClass.transmon (setupGeometry cats cfgGroundPlaneOnly) = 2 ∧
    countClass AsmClass.xmon (setupGeometry cats cfgGroundPlaneOnly) = 2 ∧
    countClass AsmClass.resonator (setupGeometry cats cfgGroundPlaneOnly) = 4 ∧
    countClass AsmClass.curveSeg (setupGeometry cats cfgGroundPlaneOnly) = 3 ∧
    countClass AsmClass.straightSeg (setupGeometry cats cfgGroundPlaneOnly) = 3 ∧
    countClass AsmClass.tLine (setupGeometry cats cfgGroundPlaneOnly) = 0 ∧
    countClass AsmClass.resonatorAssembly (setupGeometry cats cfgGroundPlaneOnly) = 0 ∧
    countClass AsmClass.curveFluxLine (setupGeometry cats cfgGroundPlaneOnly) = 0 := by
  have hchip : (fixedVols cats).count Vol.siliconChip = 0 :=
    List.count_eq_zero.mpr (not_mem_fixedVols_siliconChip cats)
  have hgp : (fixedVols cats).count Vol.groundPlane = 0 :=
    List.count_eq_zero.mpr (not_mem_fixedVols_groundPlane cats)
  refine ⟨?_, ?_, ?_, ?_, rfl, rfl, rfl, rfl, rfl, rfl, rfl, rfl, rfl⟩
  · simp [setupGeometry, cfgGroundPlaneOnly, List.count_append, hchip]
  · simp [setupGeometry, cfgGroundPlaneOnly, List.count_append, hgp]
  · simp [setupGeometry, cfgGroundPlaneOnly]
  · simp [setupGeometry, cfgGroundPlaneOnly]

/-- C8.  With `useGroundPlane` false (and the housing off, as in the
spec's scenario) the build creates exactly the world and substrate
volumes, exactly the substrate↔world interface, and no assembly
instance whatsoever, for every value of the `useTransmissionLine`,
`useResonatorAssembly` and `useFluxLines` toggles: everything else
lives inside the ground-plane branch. -/
theorem c8_ground_plane_gates_everything (cats : Catalogs) (tl ra fl : Bool) :
    (setupGeometry cats ⟨false, false, tl, ra, fl⟩).volumes =
      [Vol.world, Vol.siliconChip] ∧
    (setupGeometry cats ⟨false, false, tl, ra, fl⟩).volumes.count Vol.siliconChip = 1 ∧
    (setupGeometry cats ⟨false, false, tl, ra, fl⟩).interfaces = [worldItf] ∧
    (setupGeometry cats ⟨false, false, tl, ra, fl⟩).instances = [] :=
  ⟨rfl, rfl, rfl, rfl⟩

/-- C3.  Rebuild is idempotent: after a first `Construct()` the
teardown of a repeat call empties the border-surface table and the
lattice registrations before anything is re-registered, and a second
`Construct()` with the same configuration reproduces exactly the state
of the first — same interface table (hence the same interface-name
multiset), same volume store, same instances, with the surface
properties untouched. -/
theorem c3_idempotent_rebuild (cats : Catalogs) (cfg : DeviceConfig) :
    (teardown (construct cats cfg initState)).surfaceTable = [] ∧
    (teardown (construct cats cfg initState)).latticeRegs = [] ∧
    construct cats cfg (construct cats cfg initState) = construct cats cfg initState :=
  ⟨rfl, rfl, rfl⟩

/-- C9.  `AttachPhononSensor` is a no-op on a null surface property,
and on a non-null one it returns the same property (name, constructor
coefficients, scattering payload unchanged) with the phonon
material-properties filled and an electrode set, replacing any previous
sensor model: attaching twice equals attaching once. -/
theorem c9_attach_phonon_sensor :
    attachPhononSensor none = none ∧
    (∀ p : SurfaceProperty, ∃ q, attachPhononSensor (some p) = some q ∧
        q.hasElectrode = true ∧ q.name = p.name ∧ q.ctorArgs = p.ctorArgs ∧
        q.scatter = p.scatter) ∧
    (∀ p : SurfaceProperty,
        attachPhononSensor (attachPhononSensor (some p)) = attachPhononSensor (some p)) := by
  refine ⟨rfl, fun p => ⟨_, rfl, rfl, rfl, rfl, rfl⟩, fun p => ?_⟩
  simp [attachPhononSensor, applySensorTable_idem]

/-- C10.  The three boundary-property definitions (with their
scattering payloads and the phonon sensor attached to the Si-Nb one)
are created on the first build only; a rebuild from any
already-constructed state leaves the property objects untouched. -/
theorem c10_surface_props_defined_once :
    (∀ (cats : Catalogs) (cfg : DeviceConfig),
        (construct cats cfg initState).props = some definePropDefs) ∧
    (∀ (cats : Catalogs) (cfg : DeviceConfig) (s : DetState), s.constructed = true →
        (construct cats cfg s).props = s.props) ∧
    definePropDefs.siNb.hasElectrode = true ∧
    (definePropDefs.siNb.scatter).isSome = true ∧
    (definePropDefs.siCopper.scatter).isSome = true ∧
    (definePropDefs.siVacuum.scatter).isSome = true := by
  refine ⟨fun cats cfg => rfl, fun cats cfg s h => ?_, rfl, rfl, rfl, rfl⟩
  simp [construct, teardown, registerGeneration, h]

/-- C10 (witness). -/
theorem c10_surface_props_defined_once_witness :
    (construct specCatalogs cfgGroundPlaneOnly
        (construct specCatalogs cfgGroundPlaneOnly initState)).props =
      (construct specCatalogs cfgGroundPlaneOnly initState).props :=
  c10_surface_props_defined_once.2.1 specCatalogs cfgGroundPlaneOnly _ rfl

/-- C6 (amended).  When `useFluxLines` is enabled the build
instantiates three curved flux lines, not two, and every border surface
derived from any of the three catalogs is created in the build. -/
theorem c6_three_wired_flux_lines (cats : Catalogs) :
    countClass AsmClass.curveFluxLine (setupGeometry cats cfgWithFlux) = 3 ∧
    (∀ itf ∈ wireAssembly 8 (cats.curveFluxLine "TopStraightFluxLine"),
        itf ∈ (setupGeometry cats cfgWithFlux).interfaces) ∧
    (∀ itf ∈ wireAssembly 9 (cats.curveFluxLine "BottomStraightFluxLine"),
        itf ∈ (setupGeometry cats cfgWithFlux).interfaces) ∧
    (∀ itf ∈ wireAssembly 10 (cats.curveFluxLine "bottomRightFluxLine"),
        itf ∈ (setupGeometry cats cfgWithFlux).interfaces) := by
  refine ⟨rfl, fun itf h => ?_, fun itf h => ?_, fun itf h => ?_⟩ <;>
    simp [setupGeometry, cfgWithFlux, fluxLineSlots] <;> tauto

/-- C6 (witness for the amended theorem). -/
theorem c6_three_wired_flux_lines_witness :
    countClass AsmClass.curveFluxLine (setupGeometry specCatalogs cfgWithFlux) = 3 ∧
    (⟨"border_siliconChip_TopStraightFluxLine_ConductorLayer", Vol.siliconChip,
        Vol.leafVol 8 "TopStraightFluxLine_ConductorLayer", PropId.siNb⟩ : Interface) ∈
      (setupGeometry specCatalogs cfgWithFlux).interfaces :=
  ⟨(c6_three_wired_flux_lines specCatalogs).1,
   (c6_three_wired_flux_lines specCatalogs).2.1 _ (by decide)⟩

end FourQubit
